import Mathlib

/-!
Verification development for the `chill` thermal-network simulator.

The simulator advances node temperatures through discrete explicit-Euler
steps over a network of edges (conductive Transfer, Radiation, HeatInput).
The embedding below mirrors `src/lib.rs`:

* `f64` values are modelled as exact rationals (`F := ℚ`);
* runtime failures (the `Undefined edge type` error, the divergence guard,
  and Rust index-out-of-bounds panics) are modelled by an `Except SimError`
  result;
* ndarray inputs are Lean lists; the `(E, 2)` connection array is a list of
  index pairs; the Rust `zip` over `edge_types`, `parameters` and connection
  rows (which truncates to the shortest input) is `List.zip`;
* the `i32` step count is an `Int`; `for _i in 0..steps` iterates
  `steps.toNat` times.
-/

namespace Chill

/-- Exact-arithmetic stand-in for `f64`. -/
abbrev F := ℚ

/-- Edge kinds, from the Rust `enum EdgeType`. -/
inductive EdgeType
  | Transfer
  | Radiation
  | HeatInput
  deriving DecidableEq, Repr

/-- Decoding of edge-kind integer codes, from `EdgeType::from_i32`. -/
def EdgeType.from_i32 (value : Int) : Option EdgeType :=
  match value with
  | 0 => some EdgeType.Transfer
  | 1 => some EdgeType.Radiation
  | 2 => some EdgeType.HeatInput
  | _ => none

/-- Runtime failures of `process`: the `Undefined edge type` PyRuntimeError,
the divergence-guard PyRuntimeError (carrying the node index and the delta),
and a Rust out-of-bounds indexing panic. -/
inductive SimError
  | undefinedEdgeType (code : Int)
  | divergedAtNode (idx : Nat) (delta_temp : F)
  | indexPanic
  deriving DecidableEq, Repr

/-- The `delta_temp` computation of `update_edge`: the first `match edge_type`
in the Rust source.  Out-of-range temperature reads are the Rust panic. -/
def edge_delta (edge_type : EdgeType) (parameter dt : F)
    (temperatures : List F) (n1 n2 : Nat) : Except SimError F :=
  match edge_type with
  | EdgeType.Transfer =>
    match temperatures[n2]?, temperatures[n1]? with
    | some t2, some t1 => Except.ok ((t2 - t1) / parameter * dt)
    | _, _ => Except.error SimError.indexPanic
  | EdgeType.Radiation =>
    match temperatures[n2]?, temperatures[n1]? with
    | some t2, some t1 => Except.ok ((t2 ^ 4 - t1 ^ 4) * parameter * dt)
    | _, _ => Except.error SimError.indexPanic
  | EdgeType.HeatInput => Except.ok (parameter * dt)

/-- The Rust `update_edge`: compute `delta_temp`, then push the per-node
contributions of this edge onto the accumulating `updates` vector. -/
def update_edge (edge_type : EdgeType) (parameter dt : F)
    (capacities temperatures : List F) (n1 n2 : Nat)
    (updates : List (Nat × F)) : Except SimError (List (Nat × F)) :=
  match edge_delta edge_type parameter dt temperatures n1 n2 with
  | Except.error e => Except.error e
  | Except.ok delta_temp =>
    match edge_type with
    | EdgeType.Transfer | EdgeType.Radiation =>
      match capacities[n1]?, capacities[n2]? with
      | some c1, some c2 =>
          Except.ok (updates ++ [(n1, delta_temp / c1), (n2, -delta_temp / c2)])
      | _, _ => Except.error SimError.indexPanic
    | EdgeType.HeatInput =>
      match capacities[n2]? with
      | some c2 => Except.ok (updates ++ [(n2, delta_temp / c2)])
      | none => Except.error SimError.indexPanic

/-- The zipped edge stream of one step of `process`:
`edge_types.iter().zip(parameters).zip(connections.outer_iter())`,
truncating to the shortest of the three inputs exactly as Rust `zip` does. -/
def edge_list (parameters : List F) (connections : List (Nat × Nat))
    (edge_types : List Int) : List ((Int × F) × (Nat × Nat)) :=
  (edge_types.zip parameters).zip connections

/-- The edge loop of one step of `process`: decode each edge kind (an
unknown code aborts with `undefinedEdgeType`) and extend the update list
via `update_edge`, the temperature snapshot staying fixed throughout. -/
def eval_edges (dt : F) (capacities temperatures : List F) :
    List ((Int × F) × (Nat × Nat)) → List (Nat × F) →
    Except SimError (List (Nat × F))
  | [], updates => Except.ok updates
  | ((code, parameter), conn) :: rest, updates =>
    match EdgeType.from_i32 code with
    | none => Except.error (SimError.undefinedEdgeType code)
    | some edge_type =>
      match update_edge edge_type parameter dt capacities temperatures
          conn.1 conn.2 updates with
      | Except.error e => Except.error e
      | Except.ok updates2 => eval_edges dt capacities temperatures rest updates2

/-- The `Apply updates` loop of `process`: each `(idx, delta_temp)` pair is
guarded (`|delta_temp| > 1e8` aborts with the divergence error) and then
added to the temperature of the node, in list order. -/
def apply_updates : List F → List (Nat × F) → Except SimError (List F)
  | temperatures, [] => Except.ok temperatures
  | temperatures, (idx, delta_temp) :: rest =>
    if |delta_temp| > 100000000 then
      Except.error (SimError.divergedAtNode idx delta_temp)
    else
      match temperatures[idx]? with
      | none => Except.error SimError.indexPanic
      | some t => apply_updates (temperatures.set idx (t + delta_temp)) rest

/-- One iteration of the step loop of `process`: gather all edge
contributions against the current snapshot, then apply them. -/
def step_once (capacities parameters : List F)
    (connections : List (Nat × Nat)) (edge_types : List Int) (dt : F)
    (temperatures : List F) : Except SimError (List F) :=
  match eval_edges dt capacities temperatures
      (edge_list parameters connections edge_types) [] with
  | Except.error e => Except.error e
  | Except.ok updates => apply_updates temperatures updates

/-- The `for _i in 0..steps` loop of `process`, unrolled over a natural
iteration count. -/
def run_steps (capacities parameters : List F)
    (connections : List (Nat × Nat)) (edge_types : List Int) (dt : F) :
    Nat → List F → Except SimError (List F)
  | 0, temperatures => Except.ok temperatures
  | n + 1, temperatures =>
    match step_once capacities parameters connections edge_types dt
        temperatures with
    | Except.error e => Except.error e
    | Except.ok next =>
        run_steps capacities parameters connections edge_types dt n next

/-- The Rust `process` entry point.  `steps` is the `i32` argument: the Rust
range `0..steps` is empty when `steps ≤ 0`, hence `steps.toNat` iterations. -/
def process (temperatures capacities parameters : List F)
    (connections : List (Nat × Nat)) (edge_types : List Int)
    (dt : F) (steps : Int) : Except SimError (List F) :=
  run_steps capacities parameters connections edge_types dt
    steps.toNat temperatures

/-- The contribution of one zipped edge entry computed against a fixed
snapshot, starting from an empty update list.  Used to state that the edge
loop evaluates every edge strictly against the start-of-step snapshot. -/
def edge_contrib (dt : F) (capacities temperatures : List F)
    (e : (Int × F) × (Nat × Nat)) : Except SimError (List (Nat × F)) :=
  match EdgeType.from_i32 e.1.1 with
  | none => Except.error (SimError.undefinedEdgeType e.1.1)
  | some edge_type =>
      update_edge edge_type e.1.2 dt capacities temperatures e.2.1 e.2.2 []

/-- Per-edge contributions against one fixed snapshot, concatenated in edge
order.  This is the description the spec gives of the accumulation phase: every edge
sees the same snapshot and the contributions are gathered side-effect free. -/
def gather_contribs (dt : F) (capacities temperatures : List F) :
    List ((Int × F) × (Nat × Nat)) → Except SimError (List (Nat × F))
  | [] => Except.ok []
  | e :: rest =>
    match edge_contrib dt capacities temperatures e with
    | Except.error err => Except.error err
    | Except.ok contrib =>
      match gather_contribs dt capacities temperatures rest with
      | Except.error err => Except.error err
      | Except.ok others => Except.ok (contrib ++ others)

/-- Sum of the deltas that a batch of updates contributes to node `i`. -/
def node_delta_sum (updates : List (Nat × F)) (i : Nat) : F :=
  (updates.map (fun p => if p.1 = i then p.2 else 0)).sum

/-- Modelled from the spec: the next snapshot, described as the previous
snapshot plus the per-node sums of all accumulated contributions. -/
def spec_next_snapshot (temperatures : List F) (updates : List (Nat × F)) :
    List F :=
  (List.range temperatures.length).map fun i =>
    temperatures[i]?.getD 0 + node_delta_sum updates i

/-- Modelled from the spec: `k` chained calls of the simulator with
`steps = 1`, each fed the output of the previous call. -/
def chained_single_steps (capacities parameters : List F)
    (connections : List (Nat × Nat)) (edge_types : List Int) (dt : F) :
    Nat → List F → Except SimError (List F)
  | 0, temperatures => Except.ok temperatures
  | k + 1, temperatures =>
    match process temperatures capacities parameters connections edge_types
        dt 1 with
    | Except.error e => Except.error e
    | Except.ok next =>
        chained_single_steps capacities parameters connections edge_types dt
          k next

theorem update_edge_append (edge_type : EdgeType) (parameter dt : F)
    (capacities temperatures : List F) (n1 n2 : Nat)
    (updates : List (Nat × F)) :
    update_edge edge_type parameter dt capacities temperatures n1 n2 updates =
      Except.map (fun l => updates ++ l)
        (update_edge edge_type parameter dt capacities temperatures n1 n2 []) := by
  unfold update_edge
  cases edge_delta edge_type parameter dt temperatures n1 n2 with
  | error e => simp [Except.map]
  | ok d =>
    cases edge_type with
    | Transfer =>
      cases capacities[n1]? <;> cases capacities[n2]? <;> simp [Except.map]
    | Radiation =>
      cases capacities[n1]? <;> cases capacities[n2]? <;> simp [Except.map]
    | HeatInput =>
      cases capacities[n2]? <;> simp [Except.map]

theorem spec_next_snapshot_nil (temperatures : List F) :
    spec_next_snapshot temperatures [] = temperatures := by
  apply List.ext_getElem?
  intro n
  by_cases h : n < temperatures.length
  · obtain ⟨t, ht⟩ : ∃ t, temperatures[n]? = some t :=
      ⟨_, List.getElem?_eq_getElem h⟩
    simp [spec_next_snapshot, node_delta_sum, List.getElem?_map,
      List.getElem?_range h, ht]
  · have h1 : temperatures[n]? = none := List.getElem?_eq_none (by omega)
    have h2 : (List.range temperatures.length)[n]? = none :=
      List.getElem?_eq_none (by simp; omega)
    simp [spec_next_snapshot, List.getElem?_map, h1, h2]

theorem spec_next_snapshot_set (temperatures : List F) (j : Nat) (d : F)
    (tail : List (Nat × F)) (t : F) (ht : temperatures[j]? = some t) :
    spec_next_snapshot (temperatures.set j (t + d)) tail =
      spec_next_snapshot temperatures ((j, d) :: tail) := by
  have hj : j < temperatures.length := by
    by_contra hc
    rw [List.getElem?_eq_none (by omega)] at ht
    exact Option.noConfusion ht
  unfold spec_next_snapshot
  rw [List.length_set]
  apply List.map_congr_left
  intro i hi
  have hilen : i < temperatures.length := List.mem_range.mp hi
  by_cases hij : i = j
  · subst hij
    rw [List.getElem?_set_eq_of_lt _ hilen, ht]
    simp [node_delta_sum]
    ring
  · rw [List.getElem?_set_ne (fun h => hij h.symm)]
    simp [node_delta_sum, Ne.symm hij]

/-- C1: a Transfer edge with parameter `R` contributes exactly
`+flow/capacity[n1]` to `n1` and `-flow/capacity[n2]` to `n2` with
`flow = (T[n2] - T[n1]) / R * dt`, and a Radiation edge with parameter `k`
does the same with `flow = (T[n2]^4 - T[n1]^4) * k * dt`; nothing is
contributed to any other node. -/
theorem transfer_radiation_edge_contribution (parameter dt : F)
    (capacities temperatures : List F) (n1 n2 : Nat)
    (updates : List (Nat × F)) (t1 t2 c1 c2 : F)
    (ht1 : temperatures[n1]? = some t1) (ht2 : temperatures[n2]? = some t2)
    (hc1 : capacities[n1]? = some c1) (hc2 : capacities[n2]? = some c2) :
    update_edge EdgeType.Transfer parameter dt capacities temperatures n1 n2
        updates =
      Except.ok (updates ++
        [(n1, (t2 - t1) / parameter * dt / c1),
         (n2, -((t2 - t1) / parameter * dt) / c2)]) ∧
    update_edge EdgeType.Radiation parameter dt capacities temperatures n1 n2
        updates =
      Except.ok (updates ++
        [(n1, (t2 ^ 4 - t1 ^ 4) * parameter * dt / c1),
         (n2, -((t2 ^ 4 - t1 ^ 4) * parameter * dt) / c2)]) := by
  constructor <;> simp [update_edge, edge_delta, ht1, ht2, hc1, hc2]

/-- Witness for C1 on the concrete spec scenario (two nodes at 100 and 0,
unit parameter and capacities, dt = 1/10). -/
theorem transfer_radiation_edge_contribution_witness :
    update_edge EdgeType.Transfer 1 (1/10) [1, 1] [100, 0] 0 1 [] =
      Except.ok [(0, ((0:F) - 100) / 1 * (1/10) / 1),
                 (1, -(((0:F) - 100) / 1 * (1/10)) / 1)] ∧
    update_edge EdgeType.Radiation 1 (1/10) [1, 1] [100, 0] 0 1 [] =
      Except.ok [(0, ((0:F) ^ 4 - 100 ^ 4) * 1 * (1/10) / 1),
                 (1, -(((0:F) ^ 4 - 100 ^ 4) * 1 * (1/10)) / 1)] :=
  transfer_radiation_edge_contribution 1 (1/10) [1, 1] [100, 0] 0 1 []
    100 0 1 1 rfl rfl rfl rfl

/-- C5: a HeatInput edge with parameter `Q` contributes exactly
`Q * dt / capacity[n2]` to `n2` and nothing else; the `n1` endpoint is never
read (the result is the same for every `n1`); and the injected energy
`capacity[n2] * delta` is exactly `Q * dt`. -/
theorem heat_input_edge_contribution (parameter dt : F)
    (capacities temperatures : List F) (n1 n2 : Nat)
    (updates : List (Nat × F)) (c2 : F)
    (hc2 : capacities[n2]? = some c2) (hpos : 0 < c2) :
    update_edge EdgeType.HeatInput parameter dt capacities temperatures n1 n2
        updates =
      Except.ok (updates ++ [(n2, parameter * dt / c2)]) ∧
    c2 * (parameter * dt / c2) = parameter * dt ∧
    (∀ m1 : Nat,
      update_edge EdgeType.HeatInput parameter dt capacities temperatures m1
        n2 updates =
      update_edge EdgeType.HeatInput parameter dt capacities temperatures n1
        n2 updates) := by
  refine ⟨?_, ?_, ?_⟩
  · simp [update_edge, edge_delta, hc2]
  · rw [mul_comm, div_mul_cancel₀ _ (ne_of_gt hpos)]
  · intro m1; rfl

/-- Witness for C5 with Q = 7, dt = 1/2, capacity 4 at node 1. -/
theorem heat_input_edge_contribution_witness :
    update_edge EdgeType.HeatInput 7 (1/2) [1, 4] [100, 0] 0 1 [] =
      Except.ok [(1, (7:F) * (1/2) / 4)] ∧
    (4:F) * ((7:F) * (1/2) / 4) = 7 * (1/2) ∧
    (∀ m1 : Nat,
      update_edge EdgeType.HeatInput 7 (1/2) [1, 4] [100, 0] m1 1 [] =
      update_edge EdgeType.HeatInput 7 (1/2) [1, 4] [100, 0] 0 1 []) :=
  heat_input_edge_contribution 7 (1/2) [1, 4] [100, 0] 0 1 [] 4 rfl
    (by norm_num)

/-- C6: for a single Transfer or Radiation edge between nodes `n1` and `n2`
the contributed deltas `d1, d2` satisfy
`capacity[n1] * d1 + capacity[n2] * d2 = 0` exactly, for all positive
capacities. -/
theorem flow_conservation (x c1 c2 : F) (h1 : c1 ≠ 0) (h2 : c2 ≠ 0) :
    c1 * (x / c1) + c2 * (-x / c2) = 0 := by
  rw [mul_comm c1, div_mul_cancel₀ _ h1, mul_comm c2, div_mul_cancel₀ _ h2]
  ring

theorem energy_conservation_transfer_radiation (edge_type : EdgeType)
    (parameter dt : F) (capacities temperatures : List F) (n1 n2 : Nat)
    (t1 t2 c1 c2 : F)
    (hkind : edge_type = EdgeType.Transfer ∨ edge_type = EdgeType.Radiation)
    (ht1 : temperatures[n1]? = some t1) (ht2 : temperatures[n2]? = some t2)
    (hc1 : capacities[n1]? = some c1) (hc2 : capacities[n2]? = some c2)
    (hpos1 : 0 < c1) (hpos2 : 0 < c2) :
    ∃ d1 d2 : F,
      update_edge edge_type parameter dt capacities temperatures n1 n2 [] =
        Except.ok [(n1, d1), (n2, d2)] ∧
      c1 * d1 + c2 * d2 = 0 := by
  have h1 : c1 ≠ 0 := ne_of_gt hpos1
  have h2 : c2 ≠ 0 := ne_of_gt hpos2
  rcases hkind with h | h <;> subst h
  · refine ⟨(t2 - t1) / parameter * dt / c1,
      -((t2 - t1) / parameter * dt) / c2,
      by simp [update_edge, edge_delta, ht1, ht2, hc1, hc2],
      flow_conservation _ c1 c2 h1 h2⟩
  · refine ⟨(t2 ^ 4 - t1 ^ 4) * parameter * dt / c1,
      -((t2 ^ 4 - t1 ^ 4) * parameter * dt) / c2,
      by simp [update_edge, edge_delta, ht1, ht2, hc1, hc2],
      flow_conservation _ c1 c2 h1 h2⟩

/-- Witness for C6: Transfer edge between nodes with capacities 2 and 5. -/
theorem energy_conservation_transfer_radiation_witness :
    ∃ d1 d2 : F,
      update_edge EdgeType.Transfer 1 (1/10) [2, 5] [100, 0] 0 1 [] =
        Except.ok [(0, d1), (1, d2)] ∧
      (2:F) * d1 + 5 * d2 = 0 :=
  energy_conservation_transfer_radiation EdgeType.Transfer 1 (1/10) [2, 5]
    [100, 0] 0 1 100 0 2 5 (Or.inl rfl) rfl rfl rfl rfl (by norm_num)
    (by norm_num)

/-- C2: the concrete scenario T = [100, 0], capacities [1, 1], one Transfer
edge (0, 1) with R = 1, dt = 1/10, one step, returns exactly [90, 10]. -/
theorem concrete_two_node_transfer_step :
    process [100, 0] [1, 1] [1] [(0, 1)] [0] (1/10) 1 = Except.ok [90, 10] := by
  norm_num [process, run_steps, step_once, eval_edges, edge_list,
    EdgeType.from_i32, update_edge, edge_delta, apply_updates]

/-- C8: with steps = 0 the simulation performs no transition and returns the
input temperature vector unchanged, for every input. -/
theorem steps_zero_returns_input (temperatures capacities parameters : List F)
    (connections : List (Nat × Nat)) (edge_types : List Int) (dt : F) :
    process temperatures capacities parameters connections edge_types dt 0 =
      Except.ok temperatures := rfl

/-- C10: a negative steps value runs no iteration of the step loop: the input
temperature vector is returned unchanged and no error is raised. -/
theorem negative_steps_returns_input
    (temperatures capacities parameters : List F)
    (connections : List (Nat × Nat)) (edge_types : List Int) (dt : F)
    (steps : Int) (hneg : steps < 0) :
    process temperatures capacities parameters connections edge_types dt
        steps = Except.ok temperatures := by
  have h : steps.toNat = 0 := by omega
  simp [process, h, run_steps]

/-- Witness for C10 at steps = -1 on the concrete scenario. -/
theorem negative_steps_returns_input_witness :
    process [100, 0] [1, 1] [1] [(0, 1)] [0] (1/10) (-1) =
      Except.ok [100, 0] :=
  negative_steps_returns_input [100, 0] [1, 1] [1] [(0, 1)] [0] (1/10) (-1)
    (by norm_num)

/-- Counterexample to C3: malformed inputs do not fail up front.  An
unrecognized edge-kind code (99) with steps = 0 succeeds and returns the
temperatures, and mismatched array lengths (two temperatures, one capacity,
steps = 1) are silently accepted. -/
theorem no_upfront_validation_counterexample :
    process [1] [1] [1] [(0, 0)] [99] 1 0 = Except.ok [1] ∧
    process [1, 2] [1] [] [] [] 1 1 = Except.ok [1, 2] := by
  constructor
  · rfl
  · norm_num [process, run_steps, step_once, eval_edges, edge_list,
      apply_updates]

/-- C3 amended: there is no up-front validation; an unrecognized edge-kind
code on the first edge is only detected while executing a step, so with
steps ≥ 1 the run fails with the `Undefined edge type` runtime error (and no
temperature vector), while with steps = 0 the same malformed input succeeds
and returns the input temperatures unchanged. -/
theorem unknown_edge_kind_fails_during_step
    (temperatures capacities : List F) (parameter : F) (parameters : List F)
    (conn : Nat × Nat) (connections : List (Nat × Nat)) (code : Int)
    (edge_types : List Int) (dt : F) (steps : Int)
    (hcode : EdgeType.from_i32 code = none) :
    (0 < steps →
      process temperatures capacities (parameter :: parameters)
        (conn :: connections) (code :: edge_types) dt steps =
        Except.error (SimError.undefinedEdgeType code)) ∧
    process temperatures capacities (parameter :: parameters)
      (conn :: connections) (code :: edge_types) dt 0 =
      Except.ok temperatures := by
  constructor
  · intro hpos
    obtain ⟨n, hn⟩ : ∃ n, steps.toNat = n + 1 :=
      ⟨steps.toNat - 1, by omega⟩
    simp [process, hn, run_steps, step_once, eval_edges, edge_list, hcode]
  · rfl

/-- Witness for the amended C3 at code 99 with steps = 2. -/
theorem unknown_edge_kind_fails_during_step_witness :
    ((0:Int) < 2 →
      process [1] [1] [1] [(0, 0)] [99] 1 2 =
        Except.error (SimError.undefinedEdgeType 99)) ∧
    process [1] [1] [1] [(0, 0)] [99] 1 0 = Except.ok [1] :=
  unknown_edge_kind_fails_during_step [1] [1] 1 [] (0, 0) [] 99 [] 1 2 rfl

/-- C4: whenever any single contribution in the update list of a step exceeds the
1e8 threshold in magnitude, the apply phase fails with the divergence error
carrying an offending node index and delta (for in-bounds update targets,
regardless of the position of the entry), and a failing step makes the whole run
fail with that error, aborting all remaining steps with no temperature
vector. -/
theorem divergence_guard_aborts_run :
    (∀ (temperatures : List F) (updates : List (Nat × F)),
      (∀ p ∈ updates, p.1 < temperatures.length) →
      (∃ p ∈ updates, |p.2| > 100000000) →
      ∃ p, p ∈ updates ∧ |p.2| > 100000000 ∧
        apply_updates temperatures updates =
          Except.error (SimError.divergedAtNode p.1 p.2)) ∧
    (∀ (capacities parameters : List F) (connections : List (Nat × Nat))
        (edge_types : List Int) (dt : F) (n : Nat) (temperatures : List F)
        (e : SimError),
      step_once capacities parameters connections edge_types dt
          temperatures = Except.error e →
      run_steps capacities parameters connections edge_types dt (n + 1)
        temperatures = Except.error e) := by
  constructor
  · intro temperatures updates
    induction updates generalizing temperatures with
    | nil =>
      rintro _ ⟨p, hp, _⟩
      exact absurd hp (List.not_mem_nil p)
    | cons head tail ih =>
      intro hbound hdiv
      obtain ⟨j, d⟩ := head
      by_cases hguard : |d| > 100000000
      · exact ⟨(j, d), List.mem_cons_self _ _, hguard,
          by simp [apply_updates, hguard]⟩
      · have hj : j < temperatures.length :=
          hbound (j, d) (List.mem_cons_self _ _)
        obtain ⟨t, ht⟩ : ∃ t, temperatures[j]? = some t :=
          ⟨_, List.getElem?_eq_getElem hj⟩
        have htail : ∃ p ∈ tail, |p.2| > 100000000 := by
          rcases hdiv with ⟨p, hp, hgt⟩
          rcases List.mem_cons.mp hp with hhd | hmem
          · subst hhd; exact absurd hgt hguard
          · exact ⟨p, hmem, hgt⟩
        have hbound2 :
            ∀ p ∈ tail, p.1 < (temperatures.set j (t + d)).length := by
          intro p hp
          rw [List.length_set]
          exact hbound p (List.mem_cons_of_mem _ hp)
        obtain ⟨p, hmem, hgt, heq⟩ :=
          ih (temperatures.set j (t + d)) hbound2 htail
        refine ⟨p, List.mem_cons_of_mem _ hmem, hgt, ?_⟩
        have happly : apply_updates temperatures ((j, d) :: tail) =
            apply_updates (temperatures.set j (t + d)) tail := by
          simp [apply_updates, hguard, ht]
        rw [happly]
        exact heq
  · intro capacities parameters connections edge_types dt n temperatures e h
    simp [run_steps, h]

/-- Witness for C4: a single HeatInput update of 2e8 trips the guard, and a
step failing with that error fails a two-iteration run. -/
theorem divergence_guard_aborts_run_witness :
    (∃ p, p ∈ [((0 : Nat), (200000000 : F))] ∧ |p.2| > 100000000 ∧
      apply_updates [0] [(0, 200000000)] =
        Except.error (SimError.divergedAtNode p.1 p.2)) ∧
    run_steps [1] [200000000] [(0, 0)] [2] 1 (1 + 1) [0] =
      Except.error (SimError.divergedAtNode 0 200000000) :=
  ⟨divergence_guard_aborts_run.1 [0] [(0, 200000000)]
      (by norm_num [List.forall_mem_cons])
      ⟨(0, 200000000), List.mem_singleton_self _, by norm_num⟩,
   divergence_guard_aborts_run.2 [1] [200000000] [(0, 0)] [2] 1 1 [0]
      (SimError.divergedAtNode 0 200000000)
      (by norm_num [step_once, eval_edges, edge_list, EdgeType.from_i32,
        update_edge, edge_delta, apply_updates])⟩

/-- C7: within one step every edge is evaluated against the snapshot taken
at the start of the step — the edge loop equals the concatenation of
per-edge contributions each computed from that same fixed snapshot — and
the apply phase sums contributions per node: when all targets are in bounds
and no delta trips the guard, the next snapshot is the previous snapshot
plus the per-node sums. -/
theorem snapshot_accumulate_then_apply :
    (∀ (dt : F) (capacities temperatures : List F)
        (es : List ((Int × F) × (Nat × Nat))) (updates : List (Nat × F)),
      eval_edges dt capacities temperatures es updates =
        Except.map (fun l => updates ++ l)
          (gather_contribs dt capacities temperatures es)) ∧
    (∀ (temperatures : List F) (updates : List (Nat × F)),
      (∀ p ∈ updates, p.1 < temperatures.length) →
      (∀ p ∈ updates, ¬ |p.2| > 100000000) →
      apply_updates temperatures updates =
        Except.ok (spec_next_snapshot temperatures updates)) := by
  constructor
  · intro dt capacities temperatures es
    induction es with
    | nil => intro updates; simp [eval_edges, gather_contribs, Except.map]
    | cons e rest ih =>
      intro updates
      obtain ⟨⟨code, parameter⟩, conn⟩ := e
      simp only [eval_edges, gather_contribs, edge_contrib]
      cases hdec : EdgeType.from_i32 code with
      | none => simp [Except.map]
      | some edge_type =>
        dsimp only
        rw [update_edge_append]
        cases update_edge edge_type parameter dt capacities temperatures
            conn.1 conn.2 [] with
        | error err => simp [Except.map]
        | ok contrib =>
          simp only [Except.map]
          rw [ih]
          cases gather_contribs dt capacities temperatures rest with
          | error err => simp [Except.map]
          | ok others => simp [Except.map, List.append_assoc]
  · intro temperatures updates
    induction updates generalizing temperatures with
    | nil => intro _ _; simp [apply_updates, spec_next_snapshot_nil]
    | cons head tail ih =>
      intro hbound hguard
      obtain ⟨j, d⟩ := head
      have hnd : ¬ |d| > 100000000 :=
        hguard (j, d) (List.mem_cons_self _ _)
      have hj : j < temperatures.length :=
        hbound (j, d) (List.mem_cons_self _ _)
      obtain ⟨t, ht⟩ : ∃ t, temperatures[j]? = some t :=
        ⟨_, List.getElem?_eq_getElem hj⟩
      have hbound2 :
          ∀ p ∈ tail, p.1 < (temperatures.set j (t + d)).length := by
        intro p hp
        rw [List.length_set]
        exact hbound p (List.mem_cons_of_mem _ hp)
      have hguard2 : ∀ p ∈ tail, ¬ |p.2| > 100000000 := fun p hp =>
        hguard p (List.mem_cons_of_mem _ hp)
      have happly : apply_updates temperatures ((j, d) :: tail) =
          apply_updates (temperatures.set j (t + d)) tail := by
        simp [apply_updates, hnd, ht]
      rw [happly, ih _ hbound2 hguard2,
        spec_next_snapshot_set temperatures j d tail t ht]

/-- Witness for C7 on the update list of the concrete scenario. -/
theorem snapshot_accumulate_then_apply_witness :
    apply_updates [100, 0] [(0, -10), (1, 10)] =
      Except.ok (spec_next_snapshot [100, 0] [(0, -10), (1, 10)]) :=
  snapshot_accumulate_then_apply.2 [100, 0] [(0, -10), (1, 10)]
    (by norm_num [List.forall_mem_cons])
    (by norm_num [List.forall_mem_cons])

/-- C9: one call with steps = k equals k chained calls with steps = 1, each
fed the output of the previous call, for every input and every k ≥ 0. -/
theorem steps_compose_as_chained_single_steps
    (capacities parameters : List F) (connections : List (Nat × Nat))
    (edge_types : List Int) (dt : F) (k : Nat) (temperatures : List F) :
    process temperatures capacities parameters connections edge_types dt
        (k : Int) =
      chained_single_steps capacities parameters connections edge_types dt k
        temperatures := by
  induction k generalizing temperatures with
  | zero => rfl
  | succ n ih =>
    have hc : ((n + 1 : Nat) : Int).toNat = n + 1 := by omega
    have hc2 : ((n : Nat) : Int).toNat = n := by omega
    have h1 : process temperatures capacities parameters connections
        edge_types dt ((n + 1 : Nat) : Int) =
        run_steps capacities parameters connections edge_types dt (n + 1)
          temperatures := by
      unfold process
      rw [hc]
    rw [h1]
    simp only [run_steps, chained_single_steps]
    cases h : step_once capacities parameters connections edge_types dt
        temperatures with
    | error e =>
      have h2 : process temperatures capacities parameters connections
          edge_types dt 1 = Except.error e := by
        simp [process, run_steps, h]
      rw [h2]
    | ok next =>
      have h2 : process temperatures capacities parameters connections
          edge_types dt 1 = Except.ok next := by
        simp [process, run_steps, h]
      have h3 : run_steps capacities parameters connections edge_types dt n
          next = process next capacities parameters connections edge_types
          dt ((n : Nat) : Int) := by
        unfold process
        rw [hc2]
      rw [h2]
      dsimp only
      rw [h3, ih]

end Chill
